import Mathlib

/-!
Verification of the Order-Matching repository.

Part 1 embeds `SimpleOrder` from `src/include/SimpleOrder.h`: a plain
record of order attributes plus the `getOrderType` classification string.
C++ `uint32_t` quantities are modelled as `Nat` and `int32_t` prices as
`Int`; no arithmetic is performed on them by the embedded code, so no
overflow reduction is needed.

Part 2 models the matching engine.  The repository uses the external
Liquibook library for matching; only the order class, the listener and the
demo scenarios are in the source tree, so the engine is modelled from the
spec (section 4 of spec.md) and theorems about it are marked as such.
-/

namespace OrderMatching

/-- Embedding of `SimpleOrder` (src/include/SimpleOrder.h): the constructor
stores its seven arguments unchanged and `symbol_` is initialised to the
constant `"AAPL"`. -/
structure SimpleOrder where
  is_buy_ : Bool
  quantity_ : Nat
  price_ : Int
  order_id_ : String
  stop_price_ : Int
  all_or_none_ : Bool
  immediate_or_cancel_ : Bool
  symbol_ : String
deriving Repr, DecidableEq

/-- The C++ constructor `SimpleOrder(is_buy, qty, price, id, stop_price = 0,
all_or_none = false, immediate_or_cancel = false)`: a pure initialiser list
with no validation; `symbol_` keeps its in-class initialiser `"AAPL"`. -/
def SimpleOrder.make (is_buy : Bool) (qty : Nat) (price : Int) (id : String)
    (stop_price : Int := 0) (all_or_none : Bool := false)
    (immediate_or_cancel : Bool := false) : SimpleOrder :=
  { is_buy_ := is_buy, quantity_ := qty, price_ := price, order_id_ := id,
    stop_price_ := stop_price, all_or_none_ := all_or_none,
    immediate_or_cancel_ := immediate_or_cancel, symbol_ := "AAPL" }

/-- Accessor `is_buy()`. -/
def SimpleOrder.is_buy (o : SimpleOrder) : Bool := o.is_buy_

/-- Accessor `order_qty()`. -/
def SimpleOrder.order_qty (o : SimpleOrder) : Nat := o.quantity_

/-- Accessor `price()`. -/
def SimpleOrder.price (o : SimpleOrder) : Int := o.price_

/-- Accessor `symbol()`. -/
def SimpleOrder.symbol (o : SimpleOrder) : String := o.symbol_

/-- Accessor `stop_price()`. -/
def SimpleOrder.stop_price (o : SimpleOrder) : Int := o.stop_price_

/-- Accessor `all_or_none()`. -/
def SimpleOrder.all_or_none (o : SimpleOrder) : Bool := o.all_or_none_

/-- Accessor `immediate_or_cancel()`. -/
def SimpleOrder.immediate_or_cancel (o : SimpleOrder) : Bool :=
  o.immediate_or_cancel_

/-- Embedding of `SimpleOrder::getOrderType()`, branch for branch. -/
def SimpleOrder.getOrderType (o : SimpleOrder) : String :=
  let type := if o.price_ == 0 then "MARKET" else "LIMIT"
  let type := if o.stop_price_ > 0 then "STOP-LOSS " ++ type else type
  if o.all_or_none_ && o.immediate_or_cancel_ then type ++ " (FILL-OR-KILL)"
  else if o.all_or_none_ then type ++ " (ALL-OR-NONE)"
  else if o.immediate_or_cancel_ then type ++ " (IMMEDIATE-OR-CANCEL)"
  else type

/-- A string begins with the given pattern (checked on the character list,
so that it evaluates in the kernel). -/
def strBegins (s pat : String) : Bool :=
  s.data.take pat.data.length == pat.data

/-- A string ends with the given pattern (checked on the character list). -/
def strEnds (s pat : String) : Bool :=
  s.data.drop (s.data.length - pat.data.length) == pat.data

/-- Modelled from the spec: the engine-facing order record of spec.md §3.
The matching engine itself (Liquibook) is not part of the source tree, so
its orders are modelled with the fields the spec names: identifier, side,
price (`0` = market), original quantity, mutable remaining quantity, and
the AON/IOC qualifiers.  Stop orders are not modelled: every claim below
concerns orders with `stop_price = 0`. -/
structure MOrder where
  oid : Nat
  isBuy : Bool
  price : Int
  qty : Nat
  remaining : Nat
  aon : Bool
  ioc : Bool
deriving Repr, DecidableEq

/-- Modelled from the spec: the payload of an `on_fill` event
(spec.md §6): taker, matched resting order, fill quantity, fill price. -/
structure FillInfo where
  takerId : Nat
  makerId : Nat
  fillQty : Nat
  fillPrice : Int
deriving Repr, DecidableEq

/-- Modelled from the spec: the outbound event kinds of spec.md §6 that
the claims need. -/
inductive Event where
  | accept (oid : Nat)
  | reject (oid : Nat)
  | fill (f : FillInfo)
  | canceled (oid : Nat)
  | cancelReject (oid : Nat)
deriving Repr, DecidableEq

/-- Modelled from the spec: the book is a bid side and an ask side, each a
list of resting orders in priority order (spec.md §3): bids best (highest
price) first, asks best (lowest price) first, FIFO within a price. -/
structure Book where
  bids : List MOrder
  asks : List MOrder
deriving Repr, DecidableEq

/-- The empty book. -/
def emptyBook : Book := ⟨[], []⟩

/-- The side an incoming order matches against (spec.md §4.2 step 3). -/
def oppSide (b : Book) (o : MOrder) : List MOrder :=
  if o.isBuy then b.asks else b.bids

/-- Modelled from the spec: price compatibility of an incoming order with
a resting order (spec.md §4.2 step 3): an incoming buy matches when its
price is at least the resting ask price, an incoming sell when its price
is at most the resting bid price; a market order (price 0) matches any. -/
def compatible (o r : MOrder) : Bool :=
  if o.isBuy then o.price == 0 || decide (r.price ≤ o.price)
  else o.price == 0 || decide (o.price ≤ r.price)

/-- Modelled from the spec: total opposite-side liquidity at acceptable
prices (spec.md §4.2, AON bullet): the sum of remaining quantities over
the priority-ordered prefix of compatible resting orders. -/
def liquidity (o : MOrder) (side : List MOrder) : Nat :=
  ((side.takeWhile (compatible o)).map (·.remaining)).sum

/-- Modelled from the spec: one matching pass (spec.md §4.2 step 3).
Walks the opposite side in priority order while the head is price
compatible and quantity remains; each match consumes
`min remaining restingRemaining`, is reported at the resting order's
price, and a fully consumed resting order is removed.  Returns the fills,
the incoming order's remaining quantity, and the new opposite side. -/
def matchLoop (o : MOrder) : List MOrder → Nat → List FillInfo × Nat × List MOrder
  | [], rem => ([], rem, [])
  | r :: rs, rem =>
    if rem = 0 then ([], rem, r :: rs)
    else if compatible o r then
      let q := min rem r.remaining
      if q < r.remaining then
        ([⟨o.oid, r.oid, q, r.price⟩], rem - q,
          { r with remaining := r.remaining - q } :: rs)
      else
        let res := matchLoop o rs (rem - q)
        (⟨o.oid, r.oid, q, r.price⟩ :: res.1, res.2.1, res.2.2)
    else ([], rem, r :: rs)

/-- Modelled from the spec: insertion of a residual order into its own
side (spec.md §3, §4.2 step 4): behind every resting order of
better-or-equal price (FIFO at equal price), ahead of strictly worse
prices. -/
def insertOrder (side : List MOrder) (o : MOrder) : List MOrder :=
  match side with
  | [] => [o]
  | r :: rs =>
    if (if o.isBuy then o.price ≤ r.price else r.price ≤ o.price) then
      r :: insertOrder rs o
    else
      o :: r :: rs

/-- Modelled from the spec: the matching decision for one submission.
Per spec.md §4.2, an AON order whose full quantity cannot be satisfied by
the total acceptable opposite-side liquidity produces no fills and leaves
the opposite side untouched; otherwise the normal matching pass runs with
the order's full quantity (remaining starts equal to quantity). -/
def matchResult (b : Book) (o : MOrder) : List FillInfo × Nat × List MOrder :=
  if o.aon ∧ liquidity o (oppSide b o) < o.qty then ([], o.qty, oppSide b o)
  else matchLoop o (oppSide b o) o.qty

/-- Modelled from the spec: book update after matching (spec.md §4.2
step 4): the opposite side is replaced by the post-match side; a positive
residual is discarded when the order is IOC and otherwise rests on its
own side. -/
def applyResult (b : Book) (o : MOrder) (res : List FillInfo × Nat × List MOrder) :
    Book :=
  let b1 : Book := if o.isBuy then { b with asks := res.2.2 }
                   else { b with bids := res.2.2 }
  if res.2.1 = 0 ∨ o.ioc then b1
  else
    let rest : MOrder := { o with remaining := res.2.1 }
    if o.isBuy then { b1 with bids := insertOrder b1.bids rest }
    else { b1 with asks := insertOrder b1.asks rest }

/-- Modelled from the spec: `submit(order)` (spec.md §4.2).  A zero
quantity or negative price is rejected with no book mutation (step 1);
otherwise the order matches against the opposite side, the book is
updated, and the accept event precedes the fill events (step 5). -/
def submit (b : Book) (o : MOrder) : Book × List Event :=
  if o.qty = 0 ∨ o.price < 0 then (b, [.reject o.oid])
  else (applyResult b o (matchResult b o),
        .accept o.oid :: (matchResult b o).1.map .fill)

/-- Modelled from the spec: `cancel(order_id)` (spec.md §4.3): succeeds
and removes the order exactly when it is resting in the book; otherwise a
`CancelReject` is emitted and the book is unchanged. -/
def cancel (b : Book) (i : Nat) : Book × List Event :=
  if (b.bids ++ b.asks).any (fun r => r.oid == i) then
    ({ bids := b.bids.filter (fun r => !(r.oid == i)),
       asks := b.asks.filter (fun r => !(r.oid == i)) }, [.canceled i])
  else (b, [.cancelReject i])

/-- The fill events among an event list, in order. -/
def fillsOf (evs : List Event) : List FillInfo :=
  evs.filterMap fun e => match e with | .fill f => some f | _ => none

/-- Total filled quantity of a fill list. -/
def sumQty (fs : List FillInfo) : Nat := (fs.map (·.fillQty)).sum

theorem matchLoop_qty_split (o : MOrder) :
    ∀ (s : List MOrder) (rem : Nat),
      sumQty (matchLoop o s rem).1 + (matchLoop o s rem).2.1 = rem := by
  intro s
  induction s with
  | nil => intro rem; simp [matchLoop, sumQty]
  | cons r rs ih =>
    intro rem
    by_cases h0 : rem = 0
    · simp [matchLoop, h0, sumQty]
    · by_cases hc : compatible o r = true
      · by_cases hq : min rem r.remaining < r.remaining
        · simp [matchLoop, h0, hc, hq, sumQty]
        · have := ih (rem - min rem r.remaining)
          simp [matchLoop, h0, hc, hq, sumQty] at this ⊢
          omega
      · simp [matchLoop, h0, hc, sumQty]

theorem matchLoop_fills_all (o : MOrder) :
    ∀ (s : List MOrder) (rem : Nat), rem ≤ liquidity o s →
      (matchLoop o s rem).2.1 = 0 := by
  intro s
  induction s with
  | nil =>
    intro rem h
    simp [liquidity] at h
    simp [matchLoop, h]
  | cons r rs ih =>
    intro rem h
    by_cases h0 : rem = 0
    · simp [matchLoop, h0]
    · have hc : compatible o r = true := by
        by_contra hc
        simp [liquidity, List.takeWhile, hc] at h
        exact h0 h
      have hli : rem ≤ r.remaining + liquidity o rs := by
        simpa [liquidity, List.takeWhile, hc] using h
      by_cases hq : min rem r.remaining < r.remaining
      · simp [matchLoop, h0, hc, hq]
        omega
      · have := ih (rem - min rem r.remaining) (by omega)
        simp [matchLoop, h0, hc, hq, this]

theorem matchLoop_maker_price (o : MOrder) :
    ∀ (s : List MOrder) (rem : Nat) (f : FillInfo),
      f ∈ (matchLoop o s rem).1 →
      ∃ r, r ∈ s ∧ f.makerId = r.oid ∧ f.fillPrice = r.price := by
  intro s
  induction s with
  | nil => intro rem f hf; simp [matchLoop] at hf
  | cons r rs ih =>
    intro rem f hf
    by_cases h0 : rem = 0
    · simp [matchLoop, h0] at hf
    · by_cases hc : compatible o r = true
      · by_cases hq : min rem r.remaining < r.remaining
        · simp [matchLoop, h0, hc, hq] at hf
          subst hf
          exact ⟨r, by simp, rfl, rfl⟩
        · simp [matchLoop, h0, hc, hq] at hf
          rcases hf with hf | hf
          · subst hf
            exact ⟨r, by simp, rfl, rfl⟩
          · obtain ⟨r', hr', h1, h2⟩ := ih _ f hf
            exact ⟨r', by simp [hr'], h1, h2⟩
      · simp [matchLoop, h0, hc] at hf

theorem fillsOf_accept_fill (i : Nat) (fs : List FillInfo) :
    fillsOf (.accept i :: fs.map .fill) = fs := by
  induction fs with
  | nil => rfl
  | cons f fs ih => simpa [fillsOf, List.filterMap_cons] using ih

theorem oppSide_applyResult (b : Book) (o : MOrder)
    (res : List FillInfo × Nat × List MOrder) :
    oppSide (applyResult b o res) o = res.2.2 := by
  unfold applyResult oppSide
  by_cases hb : o.isBuy = true <;>
    by_cases hr : res.2.1 = 0 ∨ o.ioc = true <;>
      simp [hb, hr]

/-- C1: the claim states that `getOrderType()` begins with `"MARKET"` iff
`price() == 0` and with `"LIMIT"` iff `price() != 0`.  This fails for
stop orders: a market order with a positive stop price yields
`"STOP-LOSS MARKET"`, which does not begin with `"MARKET"`. -/
theorem c1_stop_market_counterexample :
    (SimpleOrder.make true 100 0 "MARKET_001" 5000).price_ = 0 ∧
    strBegins (SimpleOrder.make true 100 0 "MARKET_001" 5000).getOrderType
      "MARKET" = false ∧
    (SimpleOrder.make true 100 0 "MARKET_001" 5000).getOrderType
      = "STOP-LOSS MARKET" := by
  refine ⟨rfl, by decide, by decide⟩

/-- C1 (amended): after the optional `"STOP-LOSS "` prefix, the type
string begins with `"MARKET"` iff `price() == 0` and with `"LIMIT"` iff
`price() != 0`: i.e. `getOrderType()` begins with `"MARKET"` or
`"STOP-LOSS MARKET"` exactly when the price is zero, and with `"LIMIT"`
or `"STOP-LOSS LIMIT"` exactly when it is not. -/
theorem c1_market_limit_classification (o : SimpleOrder) :
    ((strBegins o.getOrderType "MARKET" ||
      strBegins o.getOrderType "STOP-LOSS MARKET") = true ↔ o.price_ = 0) ∧
    ((strBegins o.getOrderType "LIMIT" ||
      strBegins o.getOrderType "STOP-LOSS LIMIT") = true ↔ o.price_ ≠ 0) := by
  by_cases hp : o.price_ = 0 <;>
    by_cases hs : o.stop_price_ > 0 <;>
      cases ha : o.all_or_none_ <;>
        cases hi : o.immediate_or_cancel_ <;>
          simp [SimpleOrder.getOrderType, hp, hs, ha, hi] <;> decide

/-- C2: `getOrderType()` ends with `" (FILL-OR-KILL)"` exactly when both
the AON and IOC flags are set; it ends with `" (ALL-OR-NONE)"` exactly
when only AON is set, and with `" (IMMEDIATE-OR-CANCEL)"` exactly when
only IOC is set. -/
theorem c2_fill_or_kill_suffix (o : SimpleOrder) :
    (strEnds o.getOrderType " (FILL-OR-KILL)" = true ↔
      (o.all_or_none_ = true ∧ o.immediate_or_cancel_ = true)) ∧
    (strEnds o.getOrderType " (ALL-OR-NONE)" = true ↔
      (o.all_or_none_ = true ∧ o.immediate_or_cancel_ = false)) ∧
    (strEnds o.getOrderType " (IMMEDIATE-OR-CANCEL)" = true ↔
      (o.all_or_none_ = false ∧ o.immediate_or_cancel_ = true)) := by
  by_cases hp : o.price_ = 0 <;>
    by_cases hs : o.stop_price_ > 0 <;>
      cases ha : o.all_or_none_ <;>
        cases hi : o.immediate_or_cancel_ <;>
          simp [SimpleOrder.getOrderType, hp, hs, ha, hi] <;> decide

/-- C3: the claim states that `getOrderType()` carries the `"STOP-LOSS "`
prefix iff the stored stop price is nonzero, in particular for negative
stop prices.  The code tests `stop_price_ > 0`, so a negative stop price
gets no prefix. -/
theorem c3_negative_stop_counterexample :
    (SimpleOrder.make false 100 5000 "STOP_NEG" (-1)).stop_price_ ≠ 0 ∧
    strBegins (SimpleOrder.make false 100 5000 "STOP_NEG" (-1)).getOrderType
      "STOP-LOSS " = false ∧
    (SimpleOrder.make false 100 5000 "STOP_NEG" (-1)).getOrderType
      = "LIMIT" := by
  refine ⟨by decide, by decide, by decide⟩

/-- C3 (amended): `getOrderType()` begins with `"STOP-LOSS "` iff the
stored stop price is strictly positive. -/
theorem c3_stop_loss_iff_positive_stop (o : SimpleOrder) :
    strBegins o.getOrderType "STOP-LOSS " = true ↔ o.stop_price_ > 0 := by
  by_cases hp : o.price_ = 0 <;>
    by_cases hs : o.stop_price_ > 0 <;>
      cases ha : o.all_or_none_ <;>
        cases hi : o.immediate_or_cancel_ <;>
          simp [SimpleOrder.getOrderType, hp, hs, ha, hi] <;> decide

/-- Alice's sell from scenario 1 of the 02 example: sell 100 at 5000. -/
def sellAlice : MOrder := ⟨1, false, 5000, 100, 100, false, false⟩

/-- Bob's buy from scenario 1 of the 02 example: buy 100 at 5000. -/
def buyBob : MOrder := ⟨2, true, 5000, 100, 100, false, false⟩

/-- C4: sell 100@5000 into the empty book, then buy 100@5000: the sell is
accepted and rests; the buy produces exactly one fill event of quantity
100 at price 5000, and the final book is empty — the resting sell was
removed at remaining quantity 0 and the buy (not IOC) left no residual to
rest, so both orders end with remaining quantity 0. -/
theorem c4_perfect_match :
    (submit emptyBook sellAlice).2 = [.accept 1] ∧
    (submit (submit emptyBook sellAlice).1 buyBob).2 =
      [.accept 2, .fill ⟨2, 1, 100, 5000⟩] ∧
    (submit (submit emptyBook sellAlice).1 buyBob).1 = emptyBook := by
  decide

/-- Charlie's sell from scenario 2 of the 02 example: sell 200 at 5100. -/
def sellCharlie : MOrder := ⟨3, false, 5100, 200, 200, false, false⟩

/-- Diana's buy from scenario 2 of the 02 example: buy 75 at 5100. -/
def buyDiana : MOrder := ⟨4, true, 5100, 75, 75, false, false⟩

/-- C5: sell 200@5100 into the empty book (it rests unmatched), then buy
75@5100: exactly one fill event of quantity 75 at price 5100 is emitted,
and afterwards the seller rests on the ask side with remaining quantity
125. -/
theorem c5_partial_fill :
    (submit emptyBook sellCharlie).2 = [.accept 3] ∧
    (submit (submit emptyBook sellCharlie).1 buyDiana).2 =
      [.accept 4, .fill ⟨4, 3, 75, 5100⟩] ∧
    (submit (submit emptyBook sellCharlie).1 buyDiana).1 =
      ⟨[], [⟨3, false, 5100, 200, 125, false, false⟩]⟩ := by
  decide

/-- Jack's bid from scenario 7 of the 02 example: buy 100 at 5500. -/
def buyJack : MOrder := ⟨5, true, 5500, 100, 100, false, false⟩

/-- Kate's sell from scenario 7 of the 02 example: sell 100 at 5200. -/
def sellKate : MOrder := ⟨6, false, 5200, 100, 100, false, false⟩

/-- C6: the claim's example asserts that a resting buy at 5500 matched by
an incoming sell at 5200 trades at 5200, the taker's limit.  It trades at
the resting order's price 5500, not 5200 — the example contradicts the
maker-priority pricing rule stated by the same claim. -/
theorem c6_scenario7_counterexample :
    (fillsOf (submit (submit emptyBook buyJack).1 sellKate).2).map
      (·.fillPrice) = [5500] ∧
    ¬ (fillsOf (submit (submit emptyBook buyJack).1 sellKate).2).map
      (·.fillPrice) = [5200] := by
  decide

/-- C6 (amended): every fill emitted for a submission is priced at the
matched resting order's price; in particular, whenever the taker's limit
differs from the resting price (the taker being more aggressive), the
fill price is not the taker's limit.  In scenario 7 the trade prints at
5500, the resting bid. -/
theorem c6_fill_price_is_resting_price (b : Book) (o : MOrder)
    (f : FillInfo) (hf : f ∈ fillsOf (submit b o).2) :
    ∃ r, r ∈ oppSide b o ∧ f.makerId = r.oid ∧ f.fillPrice = r.price ∧
      (o.price ≠ r.price → f.fillPrice ≠ o.price) := by
  by_cases hv : o.qty = 0 ∨ o.price < 0
  · unfold submit at hf
    rw [if_pos hv] at hf
    simp [fillsOf] at hf
  · unfold submit at hf
    rw [if_neg hv] at hf
    dsimp only at hf
    rw [fillsOf_accept_fill] at hf
    unfold matchResult at hf
    by_cases ha : o.aon = true ∧ liquidity o (oppSide b o) < o.qty
    · rw [if_pos ha] at hf
      simp at hf
    · rw [if_neg ha] at hf
      obtain ⟨r, hr, h1, h2⟩ :=
        matchLoop_maker_price o (oppSide b o) o.qty f hf
      exact ⟨r, hr, h1, h2, fun hne => h2 ▸ Ne.symm hne⟩

/-- C6 witness: the amended theorem applied to scenario 7: the fill
⟨6, 5, 100, 5500⟩ produced by Kate's sell against Jack's resting bid is
priced at the resting bid's price. -/
theorem c6_fill_price_witness :
    ∃ r, r ∈ oppSide ⟨[buyJack], []⟩ sellKate ∧
      (⟨6, 5, 100, 5500⟩ : FillInfo).makerId = r.oid ∧
      (⟨6, 5, 100, 5500⟩ : FillInfo).fillPrice = r.price ∧
      (sellKate.price ≠ r.price →
        (⟨6, 5, 100, 5500⟩ : FillInfo).fillPrice ≠ sellKate.price) :=
  c6_fill_price_is_resting_price ⟨[buyJack], []⟩ sellKate
    ⟨6, 5, 100, 5500⟩ (by decide)

theorem cancel_not_found (b : Book) (i : Nat)
    (h : ((b.bids ++ b.asks).any fun r => r.oid == i) = false) :
    cancel b i = (b, [Event.cancelReject i]) := by
  unfold cancel
  rw [if_neg (by rw [h]; exact Bool.false_ne_true)]

/-- C7: cancelling a resting order succeeds with exactly one cancel
event and removes the order from the book entirely; a second cancel of
the same identifier yields a `CancelReject` and leaves the book
unchanged. -/
theorem c7_cancel_roundtrip (b : Book) (i : Nat)
    (h : ((b.bids ++ b.asks).any fun r => r.oid == i) = true) :
    (cancel b i).2 = [Event.canceled i] ∧
    (((cancel b i).1.bids ++ (cancel b i).1.asks).any
      fun r => r.oid == i) = false ∧
    (cancel (cancel b i).1 i).2 = [Event.cancelReject i] ∧
    (cancel (cancel b i).1 i).1 = (cancel b i).1 := by
  have hgone : ∀ l : List MOrder,
      ((l.filter fun r => !(r.oid == i)).any fun r => r.oid == i) = false := by
    intro l
    rw [List.any_eq_false]
    intro x hx
    rw [List.mem_filter] at hx
    simpa using hx.2
  have h1 : cancel b i =
      (⟨b.bids.filter fun r => !(r.oid == i),
        b.asks.filter fun r => !(r.oid == i)⟩, [Event.canceled i]) := by
    unfold cancel
    rw [if_pos h]
  have hfalse : (((cancel b i).1.bids ++ (cancel b i).1.asks).any
      fun r => r.oid == i) = false := by
    rw [h1]
    simp only [List.any_append, hgone]
    rfl
  have h2 : cancel (cancel b i).1 i = ((cancel b i).1, [Event.cancelReject i]) :=
    cancel_not_found (cancel b i).1 i hfalse
  exact ⟨by rw [h1], hfalse, by rw [h2], by rw [h2]⟩

/-- A resting order used to witness the cancel round trip. -/
def restingSell : MOrder := ⟨7, false, 5100, 200, 125, false, false⟩

/-- C7 witness: the cancel round trip on a book holding one resting
ask. -/
theorem c7_cancel_witness :
    (cancel ⟨[], [restingSell]⟩ 7).2 = [Event.canceled 7] ∧
    (((cancel ⟨[], [restingSell]⟩ 7).1.bids ++
      (cancel ⟨[], [restingSell]⟩ 7).1.asks).any
        fun r => r.oid == 7) = false ∧
    (cancel (cancel ⟨[], [restingSell]⟩ 7).1 7).2 = [Event.cancelReject 7] ∧
    (cancel (cancel ⟨[], [restingSell]⟩ 7).1 7).1 =
      (cancel ⟨[], [restingSell]⟩ 7).1 :=
  c7_cancel_roundtrip ⟨[], [restingSell]⟩ 7 (by decide)

/-- C8: a submitted AON order either has its full quantity satisfied in
the single matching pass (the fill quantities sum to its quantity), or it
produces zero fill events and the opposite side of the book is left
unchanged: the liquidity check is evaluated atomically before any fill is
committed. -/
theorem c8_aon_atomic (b : Book) (o : MOrder) (h : o.aon = true) :
    sumQty (fillsOf (submit b o).2) = o.qty ∨
    (fillsOf (submit b o).2 = [] ∧
      oppSide (submit b o).1 o = oppSide b o) := by
  by_cases hv : o.qty = 0 ∨ o.price < 0
  · right
    unfold submit
    rw [if_pos hv]
    exact ⟨rfl, rfl⟩
  · unfold submit
    rw [if_neg hv]
    dsimp only
    by_cases ha : o.aon = true ∧ liquidity o (oppSide b o) < o.qty
    · right
      unfold matchResult
      rw [if_pos ha]
      refine ⟨rfl, ?_⟩
      rw [oppSide_applyResult]
    · left
      have hliq : o.qty ≤ liquidity o (oppSide b o) := by
        rcases not_and_or.mp ha with hna | hnl
        · exact absurd h hna
        · omega
      unfold matchResult
      rw [if_neg ha]
      rw [fillsOf_accept_fill]
      have h0 := matchLoop_fills_all o (oppSide b o) o.qty hliq
      have hs := matchLoop_qty_split o (oppSide b o) o.qty
      omega

/-- A one-ask book with less liquidity than the AON order below asks
for. -/
def aonBook : Book := ⟨[], [⟨8, false, 5000, 100, 100, false, false⟩]⟩

/-- An AON buy for 150 at 5000, more than the 100 available. -/
def aonBuy : MOrder := ⟨9, true, 5000, 150, 150, true, false⟩

/-- C8 witness: the AON dichotomy applied to a concrete underfilled AON
buy. -/
theorem c8_aon_witness :
    sumQty (fillsOf (submit aonBook aonBuy).2) = aonBuy.qty ∨
    (fillsOf (submit aonBook aonBuy).2 = [] ∧
      oppSide (submit aonBook aonBuy).1 aonBuy = oppSide aonBook aonBuy) :=
  c8_aon_atomic aonBook aonBuy rfl

/-- C9: the constructor stores and the accessors return exactly the
argument tuple; modelling construction and access as pure functions, the
accessors are trivially repeatable. -/
theorem c9_constructor_accessor_roundtrip (bs : Bool) (q : Nat) (p : Int)
    (id : String) (sp : Int) (a ic : Bool) :
    (SimpleOrder.make bs q p id sp a ic).is_buy = bs ∧
    (SimpleOrder.make bs q p id sp a ic).order_qty = q ∧
    (SimpleOrder.make bs q p id sp a ic).price = p ∧
    (SimpleOrder.make bs q p id sp a ic).stop_price = sp ∧
    (SimpleOrder.make bs q p id sp a ic).all_or_none = a ∧
    (SimpleOrder.make bs q p id sp a ic).immediate_or_cancel = ic ∧
    (SimpleOrder.make bs q p id sp a ic).order_id_ = id :=
  ⟨rfl, rfl, rfl, rfl, rfl, rfl, rfl⟩

/-- C10: construction never validates and never fails: every argument
tuple — including a zero quantity, a negative price and a negative stop
price — yields an order reporting those values, and `symbol()` is the
constant `"AAPL"` whatever the arguments. -/
theorem c10_no_validation_constant_symbol (bs : Bool) (q : Nat) (p : Int)
    (id : String) (sp : Int) (a ic : Bool) :
    (SimpleOrder.make bs q p id sp a ic).symbol = "AAPL" ∧
    (SimpleOrder.make bs 0 p id sp a ic).order_qty = 0 ∧
    (SimpleOrder.make bs q (-1) id sp a ic).price = -1 ∧
    (SimpleOrder.make bs q p id (-5) a ic).stop_price = -5 :=
  ⟨rfl, rfl, rfl, rfl⟩

end OrderMatching
